import Mathlib

/-!
Verification development for the Movie_Rag repository.

Part 1 embeds the frontend TypeScript code that is present in the
repository: the shared API types (`frontend/types/api.ts`), the
in-memory TMDB cache with TTL (`frontend/lib/tmdb/client.ts`,
class `TMDBCache`), and the `/api/tmdb/search` route handler.

Part 2 models the backend corrective-RAG pipeline.  The backend Python
sources (`backend/src/rag`, `backend/src/api`) are not part of the
repository snapshot — only the README and TECH_STACK.md describe them —
so those components are modelled from the specification, each marked
`Modelled from the spec:` in its doc comment.
-/

namespace MovieRag

/-! ## Frontend API types (`frontend/types/api.ts`) -/

/-- `Source` from `frontend/types/api.ts`: `{title: string; source: string}`. -/
structure Source where
  title : String
  source : String
deriving Repr, DecidableEq

/-- `SearchResult` from `frontend/types/api.ts`:
`{answer: string; sources: Source[]; num_sources?: number}`.
The optional field is embedded as `Option`. -/
structure SearchResult where
  answer : String
  sources : List Source
  num_sources : Option Nat
deriving Repr, DecidableEq

/-- `MovieSuggestion` from `frontend/types/api.ts`:
`{title, genre, rating, source, year : string}`. -/
structure MovieSuggestion where
  title : String
  genre : String
  rating : String
  source : String
  year : String
deriving Repr, DecidableEq

/-- `CompareResponse` from `frontend/types/api.ts`:
`{query; rag_result; web_result; combined_answer; suggestions?}`.
`suggestions` is declared optional (`suggestions?:`), embedded as `Option`. -/
structure CompareResponse where
  query : String
  rag_result : SearchResult
  web_result : SearchResult
  combined_answer : String
  suggestions : Option (List MovieSuggestion)
deriving Repr, DecidableEq

/-! ## TMDB in-memory cache (`frontend/lib/tmdb/client.ts`, class `TMDBCache`)

The TypeScript class keeps a `Map<string, CacheEntry<any>>` with
`ttl = 15 * 60 * 1000` milliseconds.  `get` returns `null` on a missing
key; on a present key it deletes the entry and returns `null` when
`now - entry.timestamp > ttl`, and returns the stored data otherwise.
`set` stores `{data, timestamp: Date.now()}` under the key.  The map is
embedded as an association list; `set` replaces any previous binding,
matching `Map.set`. -/

/-- `CacheEntry<T>` from `frontend/lib/tmdb/client.ts`. -/
structure TMDBEntry (α : Type) where
  data : α
  timestamp : Nat
deriving Repr, DecidableEq

/-- The `TMDBCache` TTL: `15 * 60 * 1000` milliseconds. -/
def tmdbTTL : Nat := 15 * 60 * 1000

/-- `TMDBCache.set`: store `{data, timestamp: now}` under `k`,
replacing any previous binding (JS `Map.set`). -/
def tmdbSet {α : Type} (m : List (String × TMDBEntry α)) (k : String) (v : α)
    (now : Nat) : List (String × TMDBEntry α) :=
  (k, ⟨v, now⟩) :: m.filter (fun p => decide (p.1 ≠ k))

/-- `TMDBCache.get`: `null` on a missing key; on a hit, delete and return
`null` when `now - entry.timestamp > ttl`, else return the data.  The
second component is the cache after the call (JS mutates in place). -/
def tmdbGet {α : Type} (m : List (String × TMDBEntry α)) (k : String)
    (now : Nat) : Option α × List (String × TMDBEntry α) :=
  match m.find? (fun p => decide (p.1 = k)) with
  | none => (none, m)
  | some p =>
    if tmdbTTL < now - p.2.timestamp then
      (none, m.filter (fun q => decide (q.1 ≠ k)))
    else
      (some p.2.data, m)

/-! ## `/api/tmdb/search` route handler (`frontend/app/api/tmdb/search/route.ts`)

`GET` reads `searchParams.get('q')` (JS: `null` when absent); `!query`
is true for `null` and for the empty string, yielding a 400.  Otherwise
`searchMulti(query)` is awaited: a thrown error is caught and converted
to a 500, and a successful result is returned with status 200 and a
15-minute `Cache-Control` header.  The outcome of `searchMulti` is the
`Except` argument. -/

/-- A JSON response body of the route: either `{error: msg}` or the
search results. -/
inductive RouteBody (α : Type) where
  | error (msg : String)
  | results (r : α)
deriving Repr, DecidableEq

/-- An HTTP response of the route: status, JSON body, and the optional
`Cache-Control` header. -/
structure RouteResponse (α : Type) where
  status : Nat
  body : RouteBody α
  cacheControl : Option String
deriving Repr, DecidableEq

/-- The `GET` handler of `/api/tmdb/search`.  `q` is
`searchParams.get('q')` (`none` = parameter absent), `outcome` the
result of `searchMulti q`. -/
def tmdbSearchGET {α : Type} (q : Option String) (outcome : Except String α) :
    RouteResponse α :=
  if q = none ∨ q = some "" then
    ⟨400, RouteBody.error "Query parameter \x22q\x22 is required", none⟩
  else
    match outcome with
    | Except.ok r =>
        ⟨200, RouteBody.results r, some "public, s-maxage=900, stale-while-revalidate=1800"⟩
    | Except.error _ => ⟨500, RouteBody.error "Failed to search TMDB", none⟩

/-! ## Backend corrective-RAG pipeline

Modelled from the spec: the backend sources (`backend/src/rag`,
`backend/src/api`) are missing from the repository snapshot; only the
README and TECH_STACK.md document them.  The definitions below follow
spec §3–§7 word by word. -/

/-- Modelled from the spec: origin of a retrieved document or candidate,
`originKind` is `database` or `web` (§3). -/
inductive OriginKind where
  | database
  | web
deriving Repr, DecidableEq

/-- Modelled from the spec: query-generation strategy tags
(basic, hypothetical-document, multi-query, expansion) (§3, §4.1). -/
inductive StrategyKind where
  | basic
  | hypotheticalDocument
  | multiQuery
  | expansion
deriving Repr, DecidableEq

/-- Modelled from the spec: `QueryVariant` — a derived query string
tagged with its generation strategy (§3). -/
structure QueryVariant where
  text : String
  strategy : StrategyKind
deriving Repr, DecidableEq

/-- Modelled from the spec: `SourceResult` — answerText, sources,
originKind plus the explicit `failed=true` marker a backend yields on
timeout or error (§3, §4.2). -/
structure SourceResult where
  answerText : String
  sources : List Source
  originKind : OriginKind
  failed : Bool
deriving Repr, DecidableEq

/-- Modelled from the spec: `RelevanceAssessment` —
score (a float in [0,10]) with a rationale (§3).  Scores are rationals. -/
structure RelevanceAssessment where
  score : ℚ
  rationale : String
deriving Repr, DecidableEq

/-- Modelled from the spec: `BlendPolicy` — databaseWeight and webWeight
summing to 1 (§3). -/
structure BlendPolicy where
  databaseWeight : ℚ
  webWeight : ℚ
deriving Repr, DecidableEq

/-- Modelled from the spec: `SuggestionCandidate` —
title, genre, rating, originKind, year; the rating is `none` when
unknown or unparseable (§3, §4.6). -/
structure SuggestionCandidate where
  title : String
  genre : String
  rating : Option ℚ
  originKind : OriginKind
  year : String
deriving Repr, DecidableEq

/-! ### CorrectiveCombiner (§4.4) -/

/-- Modelled from the spec: the CorrectiveCombiner threshold table —
score ≥ 8.5 ⇒ (0.85, 0.15); 7.0 ≤ score < 8.5 ⇒ (0.55, 0.45);
score < 7.0 ⇒ (0.25, 0.75); lower bounds inclusive (§4.4). -/
def combine (a : RelevanceAssessment) : BlendPolicy :=
  if (17 : ℚ) / 2 ≤ a.score then ⟨17 / 20, 3 / 20⟩
  else if (7 : ℚ) ≤ a.score then ⟨11 / 20, 9 / 20⟩
  else ⟨1 / 4, 3 / 4⟩

/-! ### RelevanceScorer (§4.3) -/

/-- Modelled from the spec: clamp a parsed LLM score into `[0,10]`
(the contract guarantees the score lies in `[0,10]`, §4.3). -/
def clampScore (s : ℚ) : ℚ := max 0 (min 10 s)

/-- Modelled from the spec: the score obtained from the parsed LLM
scoring response; a malformed/unparseable response (`none`) is treated
as score 0 (§4.3, §7). -/
def scoreValue (parsed : Option ℚ) : ℚ :=
  match parsed with
  | none => 0
  | some s => clampScore s

/-- Modelled from the spec: `score(query, sourceResult) ->
RelevanceAssessment` with the above degradation policy; the raw LLM
reply is abstracted to its parse result (§4.3). -/
def score (parsed : Option ℚ) (rationale : String) : RelevanceAssessment :=
  ⟨scoreValue parsed, rationale⟩

/-! ### QueryExpander (§4.1) -/

/-- Modelled from the spec: a generative query strategy — a strategy tag
together with its `generate(query) -> sequence of string` capability,
returning `none` when the LLM call fails (§4.1, §9). -/
structure GenStrategy where
  kind : StrategyKind
  gen : String → Option (List String)

/-- Modelled from the spec: `expand(query) -> ordered sequence of
QueryVariant`.  The basic variant (text = original query) is always
present; a failing generative strategy is skipped, never fatal (§4.1). -/
def expand (strategies : List GenStrategy) (q : String) : List QueryVariant :=
  ⟨q, StrategyKind.basic⟩ ::
    strategies.flatMap (fun st =>
      match st.gen q with
      | none => []
      | some ts => ts.map (fun t => ⟨t, st.kind⟩))

/-! ### Injected external dependencies (§6, §9)

The LLM completion service, the two retrieval backends and the
candidate extraction are injected dependencies; tests mock them with
deterministic functions.  An `Env` bundles one deterministic mock of
each. -/

/-- Modelled from the spec: the injected external collaborators of the
core (§6): the generative expansion strategies, the two retrieval
backends (taking the variant list and `k`), the parsed LLM relevance
reply for a scoring prompt (`none` = malformed), the LLM answer
generator, the LLM grounding verifier, and the extraction of suggestion
candidates from a backend result (§4.6). -/
structure Env where
  strategies : List GenStrategy
  dbRetrieve : List QueryVariant → Nat → SourceResult
  webRetrieve : List QueryVariant → Nat → SourceResult
  scoreParse : String → Option ℚ
  generate : String → String
  verify : String → Bool
  extractCandidates : SourceResult → List SuggestionCandidate

/-- Modelled from the spec: the fixed relevance-scoring prompt built
from the query and the database evidence (§4.3). -/
def scorePrompt (q : String) (sr : SourceResult) : String :=
  "Rate 0-10 how well the evidence answers the query. Query: " ++ q
    ++ " Evidence: " ++ sr.answerText

/-- Modelled from the spec: the synthesis prompt presenting both
evidence sets weighted by the policy; the retry prompt adds the
stricter only-state-what-is-directly-supported instruction (§4.5). -/
def synthesisPrompt (q : String) (rag web : SourceResult) (p : BlendPolicy)
    (strict : Bool) : String :=
  (if strict then "Only state what is directly supported by the evidence. "
   else "")
    ++ "Answer the query from the weighted evidence. Query: " ++ q
    ++ " Database evidence (weight " ++ toString p.databaseWeight ++ "): "
    ++ rag.answerText
    ++ " Web evidence (weight " ++ toString p.webWeight ++ "): "
    ++ web.answerText

/-! ### AnswerSynthesizer (§4.5) -/

/-- Modelled from the spec: grounding outcome of a synthesis run —
verified, `unverified` (retry also failed verification), or the canned
fallback when both backends failed (§4.5). -/
inductive GroundingStatus where
  | verified
  | unverified
  | fallback
deriving Repr, DecidableEq

/-- Modelled from the spec: the canned insufficient-evidence answer
returned when both backends failed (§4.5, §7). -/
def insufficientEvidenceAnswer : String :=
  "Insufficient evidence is available to answer this question."

/-- Modelled from the spec: outcome of one synthesis run, recording the
answer, its grounding status, and how many LLM generation and
verification calls were issued (§4.5). -/
structure SynthesisTrace where
  answer : String
  status : GroundingStatus
  genCalls : Nat
  verifCalls : Nat
deriving Repr, DecidableEq

/-- Modelled from the spec: `synthesize` with the bounded
grounding-verification loop — generate, verify; on failure regenerate
once with the stricter instruction and verify again; if that also fails
return the retry's output marked `unverified`; if both backends failed,
return the canned answer without invoking the LLM (§4.5). -/
def synthesize (env : Env) (q : String) (rag web : SourceResult)
    (policy : BlendPolicy) : SynthesisTrace :=
  if rag.failed && web.failed then
    ⟨insufficientEvidenceAnswer, GroundingStatus.fallback, 0, 0⟩
  else
    let a1 := env.generate (synthesisPrompt q rag web policy false)
    if env.verify a1 then ⟨a1, GroundingStatus.verified, 1, 1⟩
    else
      let a2 := env.generate (synthesisPrompt q rag web policy true)
      if env.verify a2 then ⟨a2, GroundingStatus.verified, 2, 2⟩
      else ⟨a2, GroundingStatus.unverified, 2, 2⟩

/-! ### SuggestionRanker (§4.6) -/

/-- Modelled from the spec: the configured quality floor 6.5 (§4.6, §6). -/
def qualityFloor : ℚ := 13 / 2

/-- Modelled from the spec: title normalization used for deduplication
keys (§4.2, §4.6). -/
def normalizeTitle (s : String) : String := String.mk (s.data.map Char.toLower)

/-- Modelled from the spec: the quality filter — a candidate passes iff
its rating is unknown (kept, not penalized) or at least the quality
floor (§4.6). -/
def ratingOk (c : SuggestionCandidate) : Bool :=
  match c.rating with
  | none => true
  | some r => decide (qualityFloor ≤ r)

/-- Modelled from the spec: deduplicate by normalized title, keeping the
first occurrence and skipping titles already in `seen` (§4.6). -/
def dedupTitles (seen : List String) :
    List SuggestionCandidate → List SuggestionCandidate
  | [] => []
  | c :: cs =>
    if seen.contains (normalizeTitle c.title) then dedupTitles seen cs
    else c :: dedupTitles (normalizeTitle c.title :: seen) cs

/-- Modelled from the spec: database-origin candidates surviving the
quality filter and intra-pool deduplication (§4.6). -/
def qualifiedDb (dbPool : List SuggestionCandidate) :
    List SuggestionCandidate :=
  dedupTitles [] (dbPool.filter ratingOk)

/-- Modelled from the spec: web-origin candidates surviving the quality
filter and deduplication, where a title already present among the
qualified database candidates is dropped (database preferred, §4.6). -/
def qualifiedWeb (dbPool webPool : List SuggestionCandidate) :
    List SuggestionCandidate :=
  dedupTitles ((qualifiedDb dbPool).map (fun c => normalizeTitle c.title))
    (webPool.filter ratingOk)

/-- Modelled from the spec: `rank(ragResult, webResult, limit)` on the
extracted candidate pools — quality-filter, deduplicate preferring
database, target a 60/40 database/web mix up to `limit` with surplus
fallback to whichever origin has spare candidates, database-origin
first in rank order then web-origin (§4.6). -/
def rank (dbPool webPool : List SuggestionCandidate) (limit : Nat) :
    List SuggestionCandidate :=
  let dbQ := qualifiedDb dbPool
  let webQ := qualifiedWeb dbPool webPool
  let dbTarget := min dbQ.length ((3 * limit + 4) / 5)
  let webTake := min webQ.length (limit - dbTarget)
  let dbExtra := min (dbQ.length - dbTarget) (limit - dbTarget - webTake)
  dbQ.take (dbTarget + dbExtra) ++ webQ.take webTake

/-! ### Orchestrator (§2, §4.5, §7) and searchCompare (§6) -/

/-- Modelled from the spec: the suggestion list cap used by the
orchestrator (§8 exercises `limit = 5`). -/
def suggestionLimit : Nat := 5

/-- Modelled from the spec: `ComparisonResponse` — the terminal artifact
(query, ragResult, webResult, combinedAnswer, suggestions) (§3). -/
structure ComparisonResponseCore where
  query : String
  ragResult : SourceResult
  webResult : SourceResult
  combinedAnswer : String
  suggestions : List SuggestionCandidate
deriving Repr, DecidableEq

/-- Modelled from the spec: the Orchestrator — expand, retrieve from
both backends, score the database result, combine, synthesize, rank;
when both backends failed the suggestions are the empty sequence and
synthesis is the canned fallback (§2, §4.5, §7).  Returns the response
together with the synthesis trace. -/
def orchestrate (env : Env) (q : String) (k : Nat) :
    ComparisonResponseCore × SynthesisTrace :=
  let variants := expand env.strategies q
  let rag := env.dbRetrieve variants k
  let web := env.webRetrieve variants k
  let assess := score (env.scoreParse (scorePrompt q rag)) ""
  let policy := combine assess
  let tr := synthesize env q rag web policy
  let sugg :=
    if rag.failed && web.failed then []
    else rank (env.extractCandidates rag) (env.extractCandidates web)
      suggestionLimit
  (⟨q, rag, web, tr.answer, sugg⟩, tr)

/-- Modelled from the spec: normalized query text used as the result
cache key (§3, §5). -/
def normalizeQuery (s : String) : String := s.trim.toLower

/-- Modelled from the spec: the optional TTL-bounded result cache keyed
by normalized query text — an association list of key, store time and
stored response, newest first (§3, §5, §9). -/
def cacheLookup (ttl : Nat) :
    List (String × Nat × ComparisonResponseCore) → String → Nat →
      Option ComparisonResponseCore
  | [], _, _ => none
  | e :: es, key, now =>
    if e.1 = key then
      if now - e.2.1 ≤ ttl then some e.2.2 else none
    else cacheLookup ttl es key now

/-- Modelled from the spec: `searchCompare(query, k)` through the
read-through/write-through result cache — on a fresh (unexpired) entry
return it; otherwise run the pipeline and store the response (§5, §6). -/
def searchCompare (env : Env) (ttl : Nat)
    (cache : List (String × Nat × ComparisonResponseCore)) (now : Nat)
    (q : String) (k : Nat) :
    ComparisonResponseCore × List (String × Nat × ComparisonResponseCore) :=
  let key := normalizeQuery q
  match cacheLookup ttl cache key now with
  | some r => (r, cache)
  | none =>
    let r := (orchestrate env q k).1
    (r, (key, now, r) :: cache)

/-! ## Helper lemmas -/

lemma mem_of_mem_dedupTitles {c : SuggestionCandidate} :
    ∀ {seen : List String} {l : List SuggestionCandidate},
      c ∈ dedupTitles seen l → c ∈ l := by
  intro seen l
  induction l generalizing seen with
  | nil => intro h; simp [dedupTitles] at h
  | cons a as ih =>
    intro h
    unfold dedupTitles at h
    split at h
    · exact List.mem_cons_of_mem _ (ih h)
    · rcases List.mem_cons.mp h with h1 | h2
      · exact h1 ▸ List.mem_cons_self _ _
      · exact List.mem_cons_of_mem _ (ih h2)

lemma mem_filter_of_mem_qualifiedDb {c : SuggestionCandidate}
    {dbPool : List SuggestionCandidate} (h : c ∈ qualifiedDb dbPool) :
    c ∈ dbPool ∧ ratingOk c = true := by
  have h' := mem_of_mem_dedupTitles h
  exact ⟨(List.mem_filter.mp h').1, (List.mem_filter.mp h').2⟩

lemma mem_filter_of_mem_qualifiedWeb {c : SuggestionCandidate}
    {dbPool webPool : List SuggestionCandidate}
    (h : c ∈ qualifiedWeb dbPool webPool) :
    c ∈ webPool ∧ ratingOk c = true := by
  have h' := mem_of_mem_dedupTitles h
  exact ⟨(List.mem_filter.mp h').1, (List.mem_filter.mp h').2⟩

/-! ## Claim theorems -/

/-- C1: for a relevance assessment with database score in [0,10],
`combine` returns weights (0.85, 0.15) when the score is ≥ 8.5,
(0.55, 0.45) when it is in [7.0, 8.5), and (0.25, 0.75) when it is
below 7.0, with inclusive lower bounds; the two weights always sum to
exactly 1. -/
theorem combine_threshold_table (a : RelevanceAssessment)
    (h0 : 0 ≤ a.score) (h10 : a.score ≤ 10) :
    ((17 : ℚ) / 2 ≤ a.score →
      combine a = ⟨17 / 20, 3 / 20⟩) ∧
    ((7 : ℚ) ≤ a.score → a.score < 17 / 2 →
      combine a = ⟨11 / 20, 9 / 20⟩) ∧
    (a.score < (7 : ℚ) → combine a = ⟨1 / 4, 3 / 4⟩) ∧
    (combine a).databaseWeight + (combine a).webWeight = 1 := by
  unfold combine
  refine ⟨?_, ?_, ?_, ?_⟩
  · intro h; rw [if_pos h]
  · intro h7 h85; rw [if_neg (not_le.mpr h85), if_pos h7]
  · intro h7
    rw [if_neg (not_le.mpr (h7.trans_le (by norm_num))),
      if_neg (not_le.mpr h7)]
  · split_ifs <;> norm_num

/-- Witness for C1 at the concrete score 9. -/
theorem combine_threshold_table_witness :
    (0 : ℚ) ≤ 9 ∧ (9 : ℚ) ≤ 10 ∧
    combine ⟨9, "strong"⟩ = ⟨17 / 20, 3 / 20⟩ ∧
    (combine ⟨9, "strong"⟩).databaseWeight
      + (combine ⟨9, "strong"⟩).webWeight = 1 :=
  ⟨by norm_num, by norm_num,
   (combine_threshold_table ⟨9, "strong"⟩ (by norm_num) (by norm_num)).1
     (by norm_num),
   (combine_threshold_table ⟨9, "strong"⟩ (by norm_num) (by norm_num)).2.2.2⟩

/-- C5: `expand` always returns a non-empty sequence containing the
basic variant whose text is the original query; when every generative
strategy fails, the result is exactly the basic variant, so the
retrieval coordinator always receives at least one input. -/
theorem expand_nonempty_contains_basic (strategies : List GenStrategy)
    (q : String) :
    expand strategies q ≠ [] ∧
    QueryVariant.mk q StrategyKind.basic ∈ expand strategies q ∧
    ((∀ st ∈ strategies, st.gen q = none) →
      expand strategies q = [QueryVariant.mk q StrategyKind.basic]) := by
  refine ⟨by simp [expand], by simp [expand], ?_⟩
  intro h
  have hnil : strategies.flatMap (fun st =>
      match st.gen q with
      | none => []
      | some ts => ts.map (fun t => QueryVariant.mk t st.kind)) = [] := by
    rw [List.flatMap_eq_nil_iff]
    intro st hst
    rw [h st hst]
  simp [expand, hnil]

/-- Witness for C5 with a single generative strategy whose LLM call
fails. -/
theorem expand_nonempty_contains_basic_witness :
    expand [⟨StrategyKind.multiQuery, fun _ => none⟩] "funny Indian shows"
      = [QueryVariant.mk "funny Indian shows" StrategyKind.basic] :=
  (expand_nonempty_contains_basic
      [⟨StrategyKind.multiQuery, fun _ => none⟩] "funny Indian shows").2.2
    (by intro st hst; rw [List.mem_singleton] at hst; rw [hst])

/-- C6: `score` always returns an assessment whose score lies in
[0,10], and a malformed/unparseable LLM response (parse result `none`)
yields score 0 rather than an error. -/
theorem score_contract (parsed : Option ℚ) (rationale : String) :
    0 ≤ (score parsed rationale).score ∧
    (score parsed rationale).score ≤ 10 ∧
    (parsed = none → (score parsed rationale).score = 0) := by
  cases parsed with
  | none => refine ⟨by simp [score, scoreValue], by simp [score, scoreValue]
      , fun _ => by simp [score, scoreValue]⟩
  | some s =>
    refine ⟨?_, ?_, fun h => by cases h⟩
    · exact le_max_left _ _
    · exact max_le (by norm_num) (min_le_left _ _)

/-- Witness for C6 at a malformed (unparseable) LLM response. -/
theorem score_contract_witness :
    (score none "malformed").score = 0 ∧
    0 ≤ (score none "malformed").score ∧
    (score none "malformed").score ≤ 10 :=
  ⟨(score_contract none "malformed").2.2 rfl,
   (score_contract none "malformed").1,
   (score_contract none "malformed").2.1⟩

/-- C4: every synthesis run issues at most 2 generation and at most 2
verification calls; when evidence is present and the verifier always
fails, exactly 2 generation and 2 verification calls are issued and the
retry's output is returned marked `unverified`. -/
theorem synthesize_bounded_retry (env : Env) (q : String)
    (rag web : SourceResult) (policy : BlendPolicy) :
    ((synthesize env q rag web policy).genCalls ≤ 2 ∧
     (synthesize env q rag web policy).verifCalls ≤ 2) ∧
    ((rag.failed && web.failed) = false →
     (∀ s, env.verify s = false) →
      (synthesize env q rag web policy).genCalls = 2 ∧
      (synthesize env q rag web policy).verifCalls = 2 ∧
      (synthesize env q rag web policy).answer
        = env.generate (synthesisPrompt q rag web policy true) ∧
      (synthesize env q rag web policy).status
        = GroundingStatus.unverified) := by
  unfold synthesize
  by_cases hb : (rag.failed && web.failed) = true
  · simp [hb]
  · rw [Bool.not_eq_true] at hb
    simp only [hb, Bool.false_eq_true, if_false]
    by_cases hv1 : env.verify
        (env.generate (synthesisPrompt q rag web policy false)) = true
    · simp only [hv1, if_true]
      refine ⟨⟨by norm_num, by norm_num⟩, ?_⟩
      intro _ hall
      rw [hall] at hv1
      cases hv1
    · rw [Bool.not_eq_true] at hv1
      simp only [hv1, Bool.false_eq_true, if_false]
      by_cases hv2 : env.verify
          (env.generate (synthesisPrompt q rag web policy true)) = true
      · simp only [hv2, if_true]
        refine ⟨⟨by norm_num, by norm_num⟩, ?_⟩
        intro _ hall
        rw [hall] at hv2
        cases hv2
      · rw [Bool.not_eq_true] at hv2
        simp only [hv2, Bool.false_eq_true, if_false]
        exact ⟨⟨by norm_num, by norm_num⟩, fun _ _ => by simp⟩

/-- A deterministic mock environment whose verifier always fails and
whose backends both succeed; used to witness C4. -/
def envNeverVerifies : Env where
  strategies := []
  dbRetrieve := fun _ _ =>
    ⟨"db evidence", [⟨"Title", "s123"⟩], OriginKind.database, false⟩
  webRetrieve := fun _ _ =>
    ⟨"web evidence", [⟨"Title", "https://x"⟩], OriginKind.web, false⟩
  scoreParse := fun _ => some 6
  generate := fun p => "answer for " ++ p
  verify := fun _ => false
  extractCandidates := fun _ => []

/-- Witness for C4: with the always-failing verifier of
`envNeverVerifies` and both backends succeeding, synthesis issues
exactly 2 generation and 2 verification calls and is `unverified`. -/
theorem synthesize_bounded_retry_witness :
    (synthesize envNeverVerifies "q"
      (envNeverVerifies.dbRetrieve [] 5) (envNeverVerifies.webRetrieve [] 5)
      ⟨1 / 4, 3 / 4⟩).genCalls = 2 ∧
    (synthesize envNeverVerifies "q"
      (envNeverVerifies.dbRetrieve [] 5) (envNeverVerifies.webRetrieve [] 5)
      ⟨1 / 4, 3 / 4⟩).verifCalls = 2 ∧
    (synthesize envNeverVerifies "q"
      (envNeverVerifies.dbRetrieve [] 5) (envNeverVerifies.webRetrieve [] 5)
      ⟨1 / 4, 3 / 4⟩).status = GroundingStatus.unverified :=
  have h := (synthesize_bounded_retry envNeverVerifies "q"
      (envNeverVerifies.dbRetrieve [] 5) (envNeverVerifies.webRetrieve [] 5)
      ⟨1 / 4, 3 / 4⟩).2 rfl (fun _ => rfl)
  ⟨h.1, h.2.1, h.2.2.2⟩

/-- C3: when both retrieval backends fail, the orchestrator's response
carries the fixed insufficient-evidence answer and an empty suggestion
sequence, no LLM generation or verification call is made for synthesis,
and the failure is surfaced as this canned fallback response value
rather than an error. -/
theorem orchestrate_both_failed (env : Env) (q : String) (k : Nat)
    (hdb : (env.dbRetrieve (expand env.strategies q) k).failed = true)
    (hweb : (env.webRetrieve (expand env.strategies q) k).failed = true) :
    (orchestrate env q k).1.combinedAnswer = insufficientEvidenceAnswer ∧
    (orchestrate env q k).1.suggestions = [] ∧
    (orchestrate env q k).2.genCalls = 0 ∧
    (orchestrate env q k).2.verifCalls = 0 ∧
    (orchestrate env q k).2.status = GroundingStatus.fallback := by
  unfold orchestrate synthesize
  simp [hdb, hweb]

/-- A deterministic mock environment in which both retrieval backends
fail; used to witness C3. -/
def envBothFail : Env where
  strategies := []
  dbRetrieve := fun _ _ => ⟨"", [], OriginKind.database, true⟩
  webRetrieve := fun _ _ => ⟨"", [], OriginKind.web, true⟩
  scoreParse := fun _ => none
  generate := fun _ => "generated"
  verify := fun _ => true
  extractCandidates := fun _ => []

/-- Witness for C3 on `envBothFail`. -/
theorem orchestrate_both_failed_witness :
    (orchestrate envBothFail "any query" 5).1.combinedAnswer
      = insufficientEvidenceAnswer ∧
    (orchestrate envBothFail "any query" 5).1.suggestions = [] ∧
    (orchestrate envBothFail "any query" 5).2.genCalls = 0 ∧
    (orchestrate envBothFail "any query" 5).2.verifCalls = 0 :=
  have h := orchestrate_both_failed envBothFail "any query" 5 rfl rfl
  ⟨h.1, h.2.1, h.2.2.1, h.2.2.2.1⟩

/-- C8: two `searchCompare` calls with the same query and `k` against
one deterministic environment yield the same `ComparisonResponse`,
whether the second call is answered from the result cache (fresh entry)
or recomputed (expired entry) — the pipeline introduces no
non-determinism. -/
theorem searchCompare_deterministic (env : Env) (ttl : Nat) (q : String)
    (k : Nat) (t1 t2 : Nat) :
    (searchCompare env ttl (searchCompare env ttl [] t1 q k).2 t2 q k).1
      = (searchCompare env ttl [] t1 q k).1 := by
  by_cases h : t2 - t1 ≤ ttl <;>
    simp [searchCompare, cacheLookup, h]

/-- C7 counterexample: the declared response contract does not make the
suggestions sequence always present — `suggestions?` is optional in
`CompareResponse`, so a well-typed response with absent suggestions
exists. -/
theorem compareResponse_suggestions_not_always_present :
    ¬ ∀ r : CompareResponse, r.suggestions.isSome = true := by
  intro h
  have h0 := h ⟨"q", ⟨"a", [], none⟩, ⟨"a", [], none⟩, "c", none⟩
  simp at h0

/-- C7 (amended): a `CompareResponse` consists of exactly the fields
query, rag_result, web_result, combined_answer and the optional
suggestions sequence, and a `Source` entry exposes exactly title and
source. -/
theorem compareResponse_exact_fields (r : CompareResponse) (s : Source) :
    r = CompareResponse.mk r.query r.rag_result r.web_result
        r.combined_answer r.suggestions ∧
    s = Source.mk s.title s.source :=
  ⟨rfl, rfl⟩

/-- C9: after `set k v` at time `t0`, `get k` at time `now` returns the
stored value while the elapsed time is at most the 15-minute TTL; once
the elapsed time exceeds the TTL, `get` returns `null` and deletes the
entry, which is then absent from the resulting cache. -/
theorem tmdbCache_get_after_set {α : Type}
    (m : List (String × TMDBEntry α)) (k : String) (v : α) (t0 now : Nat) :
    (now - t0 ≤ tmdbTTL →
      (tmdbGet (tmdbSet m k v t0) k now).1 = some v) ∧
    (tmdbTTL < now - t0 →
      (tmdbGet (tmdbSet m k v t0) k now).1 = none ∧
      (tmdbGet (tmdbSet m k v t0) k now).2.find?
        (fun p => decide (p.1 = k)) = none) := by
  have hfind : (tmdbSet m k v t0).find? (fun p => decide (p.1 = k))
      = some (k, ⟨v, t0⟩) := by
    unfold tmdbSet
    exact List.find?_cons_of_pos _ (by simp)
  have hclean : ∀ l : List (String × TMDBEntry α),
      (l.filter (fun q => decide (q.1 ≠ k))).find?
        (fun p => decide (p.1 = k)) = none := by
    intro l
    rw [List.find?_eq_none]
    intro x hx
    have hne := (List.mem_filter.mp hx).2
    simp only [decide_eq_true_eq] at hne ⊢
    exact hne
  constructor
  · intro h
    unfold tmdbGet
    rw [hfind]
    simp only [if_neg (Nat.not_lt.mpr h)]
  · intro h
    unfold tmdbGet
    rw [hfind]
    simp only [if_pos h]
    refine ⟨by simp, ?_⟩
    show ((tmdbSet m k v t0).filter (fun q => decide (q.1 ≠ k))).find?
      (fun p => decide (p.1 = k)) = none
    exact hclean _

/-- Witness for C9: a value stored at time 0 is served at exactly the
TTL boundary (900000 ms) and is gone one millisecond later. -/
theorem tmdbCache_get_after_set_witness :
    (tmdbGet (tmdbSet ([] : List (String × TMDBEntry Nat)) "key" 7 0)
      "key" 900000).1 = some 7 ∧
    (tmdbGet (tmdbSet ([] : List (String × TMDBEntry Nat)) "key" 7 0)
      "key" 900001).1 = none :=
  ⟨(tmdbCache_get_after_set [] "key" 7 0 900000).1
      (by norm_num [tmdbTTL]),
   ((tmdbCache_get_after_set [] "key" 7 0 900001).2
      (by norm_num [tmdbTTL])).1⟩

/-- C10 counterexample: the handler returns 400 on a present-but-empty
`q` parameter, so 400 does not happen exactly when `q` is absent. -/
theorem tmdbSearchGET_empty_q_counterexample :
    (tmdbSearchGET (some "") (Except.ok (0 : Nat))).status = 400 ∧
    (some "" : Option String) ≠ none := by
  exact ⟨rfl, by simp⟩

/-- C10 (amended): the handler returns 400 with the fixed error body
exactly when `q` is absent or the empty string; any `searchMulti` error
becomes a 500 with body error "Failed to search TMDB"; success returns
the results with status 200 and the 15-minute Cache-Control header. -/
theorem tmdbSearchGET_spec {α : Type} (q : Option String)
    (outcome : Except String α) :
    ((tmdbSearchGET q outcome).status = 400 ↔ (q = none ∨ q = some "")) ∧
    ((q = none ∨ q = some "") →
      tmdbSearchGET q outcome
        = ⟨400, RouteBody.error "Query parameter \x22q\x22 is required",
            none⟩) ∧
    (¬(q = none ∨ q = some "") → ∀ e, outcome = Except.error e →
      tmdbSearchGET q outcome
        = ⟨500, RouteBody.error "Failed to search TMDB", none⟩) ∧
    (¬(q = none ∨ q = some "") → ∀ r, outcome = Except.ok r →
      tmdbSearchGET q outcome
        = ⟨200, RouteBody.results r,
            some "public, s-maxage=900, stale-while-revalidate=1800"⟩) := by
  by_cases h : q = none ∨ q = some ""
  · simp [tmdbSearchGET, h]
  · cases outcome with
    | ok r => simp [tmdbSearchGET, h]
    | error e => simp [tmdbSearchGET, h]

/-- Witness for C10 (amended) at a present non-empty query with a
successful search. -/
theorem tmdbSearchGET_spec_witness :
    tmdbSearchGET (some "batman") (Except.ok (1 : Nat))
      = ⟨200, RouteBody.results 1,
          some "public, s-maxage=900, stale-while-revalidate=1800"⟩ :=
  (tmdbSearchGET_spec (some "batman") (Except.ok 1)).2.2.2
    (by simp) 1 rfl

lemma rank_five_eq (dbPool webPool : List SuggestionCandidate)
    (h3db : 3 ≤ (qualifiedDb dbPool).length)
    (h3web : 3 ≤ (qualifiedWeb dbPool webPool).length) :
    rank dbPool webPool 5
      = (qualifiedDb dbPool).take 3
        ++ (qualifiedWeb dbPool webPool).take 2 := by
  simp only [rank]
  have e1 : min (qualifiedDb dbPool).length ((3 * 5 + 4) / 5) = 3 := by
    omega
  rw [e1]
  have e2 : min (qualifiedWeb dbPool webPool).length (5 - 3) = 2 := by
    omega
  rw [e2]
  have e3 : min ((qualifiedDb dbPool).length - 3) (5 - 3 - 2) = 0 := by
    omega
  rw [e3]

/-- C2: every candidate emitted by `rank` either has an unknown rating
(kept, not penalized) or a known rating at least the 6.5 quality floor;
and when both origin pools contribute at least 3 qualifying candidates
with limit 5, the output contains exactly 3 database-origin and 2
web-origin candidates (the 60/40 mix). -/
theorem rank_quality_floor_and_mix
    (dbPool webPool : List SuggestionCandidate) (limit : Nat) :
    (∀ c ∈ rank dbPool webPool limit,
        c.rating = none ∨ ∃ r, c.rating = some r ∧ qualityFloor ≤ r) ∧
    ((∀ c ∈ dbPool, c.originKind = OriginKind.database) →
     (∀ c ∈ webPool, c.originKind = OriginKind.web) →
     3 ≤ (qualifiedDb dbPool).length →
     3 ≤ (qualifiedWeb dbPool webPool).length →
     limit = 5 →
     ((rank dbPool webPool limit).filter
        (fun c => decide (c.originKind = OriginKind.database))).length = 3 ∧
     ((rank dbPool webPool limit).filter
        (fun c => decide (c.originKind = OriginKind.web))).length = 2) := by
  constructor
  · intro c hc
    have hok : ratingOk c = true := by
      simp only [rank] at hc
      rcases List.mem_append.mp hc with h | h
      · exact (mem_filter_of_mem_qualifiedDb (List.mem_of_mem_take h)).2
      · exact (mem_filter_of_mem_qualifiedWeb (List.mem_of_mem_take h)).2
    unfold ratingOk at hok
    cases hr : c.rating with
    | none => exact Or.inl rfl
    | some r =>
      rw [hr] at hok
      exact Or.inr ⟨r, rfl, of_decide_eq_true hok⟩
  · intro hdbO hwebO h3db h3web hlim
    subst hlim
    rw [rank_five_eq dbPool webPool h3db h3web]
    have hdbTake : ∀ c ∈ (qualifiedDb dbPool).take 3,
        c.originKind = OriginKind.database := fun c hc =>
      hdbO c (mem_filter_of_mem_qualifiedDb (List.mem_of_mem_take hc)).1
    have hwebTake : ∀ c ∈ (qualifiedWeb dbPool webPool).take 2,
        c.originKind = OriginKind.web := fun c hc =>
      hwebO c (mem_filter_of_mem_qualifiedWeb (List.mem_of_mem_take hc)).1
    have hlenDb : ((qualifiedDb dbPool).take 3).length = 3 := by
      rw [List.length_take]
      omega
    have hlenWeb : ((qualifiedWeb dbPool webPool).take 2).length = 2 := by
      rw [List.length_take]
      omega
    constructor
    · rw [List.filter_append, List.length_append]
      have hA : ((qualifiedDb dbPool).take 3).filter
          (fun c => decide (c.originKind = OriginKind.database))
          = (qualifiedDb dbPool).take 3 :=
        List.filter_eq_self.mpr (fun c hc => by simp [hdbTake c hc])
      have hB : ((qualifiedWeb dbPool webPool).take 2).filter
          (fun c => decide (c.originKind = OriginKind.database))
          = [] :=
        List.filter_eq_nil_iff.mpr (fun c hc => by simp [hwebTake c hc])
      rw [hA, hB, hlenDb]
      rfl
    · rw [List.filter_append, List.length_append]
      have hA : ((qualifiedDb dbPool).take 3).filter
          (fun c => decide (c.originKind = OriginKind.web))
          = [] :=
        List.filter_eq_nil_iff.mpr (fun c hc => by simp [hdbTake c hc])
      have hB : ((qualifiedWeb dbPool webPool).take 2).filter
          (fun c => decide (c.originKind = OriginKind.web))
          = (qualifiedWeb dbPool webPool).take 2 :=
        List.filter_eq_self.mpr (fun c hc => by simp [hwebTake c hc])
      rw [hA, hB, hlenWeb]
      rfl

/-- A concrete database pool for the C2 witness: four database-origin
candidates, one below the quality floor. -/
def dbPoolW : List SuggestionCandidate :=
  [⟨"Alpha", "drama", some 9, OriginKind.database, "2019"⟩,
   ⟨"Beta", "comedy", some 8, OriginKind.database, "2020"⟩,
   ⟨"Gamma", "thriller", some 7, OriginKind.database, "2021"⟩,
   ⟨"Delta", "drama", some 5, OriginKind.database, "2018"⟩]

/-- A concrete web pool for the C2 witness: three web-origin candidates,
one with an unknown rating. -/
def webPoolW : List SuggestionCandidate :=
  [⟨"Epsilon", "comedy", some 8, OriginKind.web, "2022"⟩,
   ⟨"Zeta", "drama", some 7, OriginKind.web, "2022"⟩,
   ⟨"Eta", "comedy", none, OriginKind.web, "2023"⟩]

/-- Witness for C2 on the concrete pools: the 60/40 mix at limit 5. -/
theorem rank_quality_floor_and_mix_witness :
    ((rank dbPoolW webPoolW 5).filter
      (fun c => decide (c.originKind = OriginKind.database))).length = 3 ∧
    ((rank dbPoolW webPoolW 5).filter
      (fun c => decide (c.originKind = OriginKind.web))).length = 2 :=
  (rank_quality_floor_and_mix dbPoolW webPoolW 5).2
    (by norm_num [dbPoolW])
    (by norm_num [webPoolW])
    (by norm_num [qualifiedDb, dbPoolW, dedupTitles, ratingOk,
        qualityFloor, normalizeTitle]
        <;> decide)
    (by norm_num [qualifiedWeb, qualifiedDb, dbPoolW, webPoolW,
        dedupTitles, ratingOk, qualityFloor, normalizeTitle]
        <;> decide)
    rfl

end MovieRag
